import Mathlib

/-!
Shallow embedding of the agentops repository (supervisor-api and
fixer-agent services) and proofs about the claims of its specification.

Conventions of the embedding:
* Python floats are modelled as rationals (`ℚ`); `round(x, 2)` is modelled
  by `round2` below (round to the nearest hundredth; the half-even versus
  half-up choice at exact ties is immaterial to every property proved here,
  all of which tolerate a half-ulp).
* Python `f"{x:.2f}"` numeric rendering is modelled by `fmt2`, which prints
  the rounded hundredths; no property proved here depends on digit content.
* External services (Cloud Monitoring, Cloud Run control plane, Gemini,
  Firestore) are modelled by explicit inputs describing their responses;
  a thrown exception from an external call is an explicit error branch.
* Counts of control-plane writes (`update_service` calls) are returned
  alongside results so that frame properties ("no write issued") are
  statable.
-/

namespace AgentOps

/-! ## models.py (supervisor-api): enumerations and records -/

/-- `ServiceHealthStatus` enum from supervisor-api/models.py. -/
inductive ServiceHealthStatus
  | healthy
  | degraded
  | unhealthy
  | unknown
  deriving DecidableEq, Repr

/-- `ActionType` enum from supervisor-api/models.py. -/
inductive ActionType
  | ROLLBACK
  | SCALE_UP
  | SCALE_DOWN
  | REDEPLOY
  | NONE
  deriving DecidableEq, Repr

/-- `HealthMetrics` record from supervisor-api/models.py (fields used by the
scanner; `latency_p50`/`p99` and the timestamp are never read by the code
under proof and are omitted). -/
structure HealthMetrics where
  error_rate : ℚ
  latency_p95 : Option ℚ
  request_count : ℕ
  success_count : ℤ
  error_count : ℕ
  deriving DecidableEq, Repr

/-- Threshold configuration read from the environment in
`HealthScanner.__init__` (defaults as in the source). -/
structure ScannerConfig where
  error_threshold : ℚ := 5
  latency_p95_threshold : ℚ := 600
  min_request_count : ℕ := 100
  deriving Repr

/-- Python `round(x, 2)`: round to two decimal places. -/
def round2 (q : ℚ) : ℚ := (round (q * 100) : ℚ) / 100

/-- Renders a rational to two decimal places (model of `f"{x:.2f}"`). -/
def fmt2 (q : ℚ) : String :=
  let n : ℤ := round (q * 100)
  let sign := if n < 0 then "-" else ""
  let a := n.natAbs
  let r := a % 100
  sign ++ toString (a / 100) ++ "." ++ (if r < 10 then "0" ++ toString r else toString r)

/-! ## health_scanner.py: `HealthScanner._get_metrics`

The three telemetry query results are inputs: the aligned-sum request
count, the 5xx-filtered count (both `int64` points, hence naturals), and
the p95 latency reduction (`0.0` when the result set is empty). -/

/-- Metrics value built by the success path of `HealthScanner._get_metrics`
from the raw query results `req` (total request count), `err` (5xx count)
and `lat` (p95 latency query result, `0` when no data). -/
def getMetrics (req err : ℕ) (lat : ℚ) : HealthMetrics :=
  let total_requests := req
  let total_errors := err
  -- error_rate = (total_errors / total_requests * 100) if total_requests > 0 else 0.0
  let error_rate : ℚ := if total_requests > 0 then (total_errors : ℚ) / total_requests * 100 else 0
  -- latency_p95 = float(latencies) if latencies else None   (0.0 is falsy)
  let latency_p95 : Option ℚ := if lat ≠ 0 then some lat else none
  { error_rate := round2 error_rate
    -- round(latency_p95, 2) if latency_p95 else None
    latency_p95 := match latency_p95 with
      | some l => if l ≠ 0 then some (round2 l) else none
      | none => none
    request_count := total_requests
    success_count := (total_requests : ℤ) - (total_errors : ℤ)
    error_count := total_errors }

/-- The zeroed metrics returned by the `except` branch of `_get_metrics`. -/
def zeroMetrics : HealthMetrics :=
  { error_rate := 0, latency_p95 := none, request_count := 0
    success_count := 0, error_count := 0 }

/-- `HealthScanner._get_metrics` including its exception path: `none`
models a raised telemetry exception, collapsing to zeroed metrics. -/
def getMetricsResult (telemetry : Option (ℕ × ℕ × ℚ)) : HealthMetrics :=
  match telemetry with
  | none => zeroMetrics
  | some (req, err, lat) => getMetrics req err lat

/-! ## health_scanner.py: `HealthScanner._assess_health` -/

/-- The error-rate threshold check of `_assess_health`. -/
def errorRateViolation (cfg : ScannerConfig) (m : HealthMetrics) : Bool :=
  m.error_rate > cfg.error_threshold

/-- The latency threshold check of `_assess_health`:
`metrics.latency_p95 and metrics.latency_p95 > threshold`
(`None` and `0.0` are falsy). -/
def latencyViolation (cfg : ScannerConfig) (m : HealthMetrics) : Bool :=
  match m.latency_p95 with
  | none => false
  | some l => l ≠ 0 && l > cfg.latency_p95_threshold

/-- The "High error rate" anomaly message of `_assess_health`. -/
def highErrorRateMsg (cfg : ScannerConfig) (m : HealthMetrics) : String :=
  "High error rate: " ++ fmt2 m.error_rate ++ "% (threshold: " ++
    fmt2 cfg.error_threshold ++ "%)"

/-- The "High latency p95" anomaly message of `_assess_health`. -/
def highLatencyMsg (cfg : ScannerConfig) (m : HealthMetrics) : String :=
  "High latency p95: " ++ fmt2 (m.latency_p95.getD 0) ++ "ms (threshold: " ++
    fmt2 cfg.latency_p95_threshold ++ "ms)"

/-- The `anomalies` list collected by `_assess_health` (in source order:
error rate first, then latency). -/
def collectAnomalies (cfg : ScannerConfig) (m : HealthMetrics) : List String :=
  (if errorRateViolation cfg m then [highErrorRateMsg cfg m] else []) ++
  (if latencyViolation cfg m then [highLatencyMsg cfg m] else [])

/-- `HealthScanner._assess_health`: returns
`(status, has_anomaly, anomaly_summary)`. -/
def assessHealth (cfg : ScannerConfig) (m : HealthMetrics) :
    ServiceHealthStatus × Bool × Option String :=
  if m.request_count < cfg.min_request_count then
    (.healthy, false, none)
  else
    let anomalies := collectAnomalies cfg m
    if anomalies.isEmpty then
      (.healthy, false, none)
    else if anomalies.length > 1 then
      (.unhealthy, true, some (String.intercalate "; " anomalies))
    else
      (.degraded, true, some (String.intercalate "; " anomalies))

/-! ## main.py (supervisor-api): `scan_service_health`, classification block

The supervisor's FastAPI entry point carries its own near-duplicate of the
classification; this embeds lines 309-336 of supervisor-api/main.py, from
the raw query results to the returned `(status, has_anomaly,
anomaly_summary)` triple. Statuses are the raw strings of that code. -/

/-- The anomaly-classification block of `scan_service_health` in
supervisor-api/main.py. Inputs are the gathered query results
(`total_requests`, `total_errors` integral, `latency_p95` with `0.0`
standing for missing data, as in `fetch_metric_from_monitoring`). -/
def scanServiceHealthAssess (error_threshold latency_threshold : ℚ)
    (min_request_count : ℕ) (total_requests total_errors : ℕ)
    (latency_p95 : ℚ) : String × Bool × Option String :=
  let error_rate : ℚ :=
    if total_requests > 0 then (total_errors : ℚ) / total_requests * 100 else 0
  let st := "healthy"
  let ha := false
  let an : List String := []
  let (st, ha, an) :=
    if total_requests ≥ min_request_count then
      -- error-rate check: a violation sets the status straight to "unhealthy"
      let (st, ha, an) :=
        if error_rate > error_threshold then
          ("unhealthy", true,
            an ++ ["High error rate: " ++ fmt2 error_rate ++ "% (threshold: " ++
              fmt2 error_threshold ++ "%)"])
        else (st, ha, an)
      -- latency check (`latency_p95 and latency_p95 > latency_threshold`)
      let (st, ha, an) :=
        if latency_p95 ≠ 0 ∧ latency_p95 > latency_threshold then
          ((if st ≠ "unhealthy" then "degraded" else st), true,
            an ++ ["High latency p95: " ++ fmt2 latency_p95 ++ "ms (threshold: " ++
              fmt2 latency_threshold ++ "ms)"])
        else (st, ha, an)
      (st, ha, an)
    else (st, ha, an)
  (st, ha, if an.isEmpty then none else some (String.intercalate "; " an))

/-! ## gemini_reasoner.py: revision facts and recommendation parsing -/

/-- The platform facts returned by `GeminiReasoner._get_revision_info`. -/
structure RevisionInfo where
  current_revision : Option String
  previous_revision : Option String
  traffic_split : List (String × ℤ)
  available_revisions : List String
  deriving DecidableEq, Repr

/-- The previous-stable-revision derivation at the end of
`_get_revision_info`: the first traffic-split entry whose revision differs
from the current revision and carries positive traffic; when that yields
nothing (Python falsiness: `None` or the empty name), the second entry of
the revision list when one exists. -/
def derivePreviousRevision (traffic_split : List (String × ℤ))
    (current_revision : Option String) (available_revisions : List String) :
    Option String :=
  let fromTraffic :=
    (traffic_split.find? fun p => decide (some p.1 ≠ current_revision) && decide (p.2 > 0)).map
      Prod.fst
  -- `if not previous_revision and len(available_revisions) > 1:`
  let truthy : Bool := match fromTraffic with
    | some s => s != ""
    | none => false
  if truthy then fromTraffic
  else if available_revisions.length > 1 then available_revisions[1]?
  else fromTraffic

/-- `_get_revision_info` assembled from the control-plane responses:
`serviceTraffic` is the traffic split read from the service (revision name,
percent, is-latest flag per target), `revisions` the listed revision names.
`none` for `serviceTraffic` models a raised control-plane error, collapsing
to the default dict of the `except` branch. -/
def getRevisionInfo (serviceTraffic : Option (List (String × ℤ × Bool)))
    (revisions : List String) : RevisionInfo :=
  match serviceTraffic with
  | none =>
      { current_revision := some "unknown", previous_revision := none
        traffic_split := [], available_revisions := [] }
  | some targets =>
      let traffic_split := targets.map fun t => (t.1, t.2.1)
      let current_revision :=
        (targets.find? fun t => t.2.2).map Prod.fst
      { current_revision := current_revision
        previous_revision :=
          derivePreviousRevision traffic_split current_revision revisions
        traffic_split := traffic_split
        available_revisions := revisions }

/-- The JSON object fields read by `_parse_recommendation` after a
successful `json.loads` (with the defaults `dict.get` supplies). -/
structure ParsedReply where
  action : String := "NONE"
  confidence : ℚ := 0
  reasoning : String := "No reasoning provided"
  risk_assessment : String := "Unknown risk"
  expected_impact : String := "Unknown impact"
  deriving DecidableEq, Repr

/-- `AIRecommendation` record from supervisor-api/models.py (the timestamp
field is never read and is omitted). The pydantic constraint
`confidence ∈ [0, 1]` is enforced at construction inside
`parseRecommendation`. -/
structure AIRecommendation where
  action : ActionType
  confidence : ℚ
  reasoning : String
  risk_assessment : String
  expected_impact : String
  target_revision : Option String := none
  scale_params : Option (List (String × ℤ)) := none
  deriving DecidableEq, Repr

/-- Python `str.upper()` (characterwise ASCII uppercasing, which is all
the action names exercise). -/
def pyUpper (s : String) : String := String.mk (s.data.map Char.toUpper)

/-- `ActionType[action_str] if action_str in ActionType.__members__`. -/
def actionTypeOfString (s : String) : Option ActionType :=
  if s = "ROLLBACK" then some .ROLLBACK
  else if s = "SCALE_UP" then some .SCALE_UP
  else if s = "SCALE_DOWN" then some .SCALE_DOWN
  else if s = "REDEPLOY" then some .REDEPLOY
  else if s = "NONE" then some .NONE
  else none

/-- The fallback recommendation of `_parse_recommendation`'s `except`
branch. -/
def parseFallback (e : String) : AIRecommendation :=
  { action := .NONE
    confidence := 0
    reasoning := "Failed to parse recommendation: " ++ e
    risk_assessment := "Unable to assess risk"
    expected_impact := "No action will be taken" }

/-- `GeminiReasoner._parse_recommendation`. The reply is the result of the
code-fence stripping plus `json.loads` plus field coercion: `.error e`
when any of those raised, `.ok d` with the extracted fields otherwise.
Constructing the pydantic `AIRecommendation` with an out-of-range
confidence raises inside the same `try`, landing in the fallback branch. -/
def parseRecommendation (reply : Except String ParsedReply)
    (revision_info : RevisionInfo) : AIRecommendation :=
  match reply with
  | .error e => parseFallback e
  | .ok d =>
      let action_str := pyUpper d.action
      let action := (actionTypeOfString action_str).getD .NONE
      -- target revision injected only for ROLLBACK; may be `none`
      let target_revision :=
        if action = .ROLLBACK then revision_info.previous_revision else none
      if d.confidence < 0 ∨ 1 < d.confidence then
        parseFallback "validation error"
      else
        { action := action
          confidence := d.confidence
          reasoning := d.reasoning
          risk_assessment := d.risk_assessment
          expected_impact := d.expected_impact
          target_revision := target_revision }

/-- The fallback recommendation of `analyze_and_recommend`'s `except`
branch. -/
def analysisFallback (e : String) : AIRecommendation :=
  { action := .NONE
    confidence := 0
    reasoning := "Analysis failed: " ++ e
    risk_assessment := "Unable to assess risk due to analysis error"
    expected_impact := "No action will be taken" }

/-- Outcome of the model interaction inside `analyze_and_recommend`:
either the generate-content call (or any other statement of the outer
`try`) raised, or the model replied and the reply's parse outcome is
carried. -/
inductive ModelOutcome
  | callError (e : String)
  | reply (r : Except String ParsedReply)
  deriving Repr

/-- Whether the outcome is one of the failure cases (upstream error,
timeout, or an unparseable reply). -/
def ModelOutcome.failed : ModelOutcome → Bool
  | .callError _ => true
  | .reply (.error _) => true
  | .reply (.ok _) => false

/-- `GeminiReasoner.analyze_and_recommend`: total toward the caller; the
outer `except` maps any raised error to the safe default, and
`_parse_recommendation` handles reply parsing. -/
def analyzeAndRecommend (revision_info : RevisionInfo)
    (outcome : ModelOutcome) : AIRecommendation :=
  match outcome with
  | .callError e => analysisFallback e
  | .reply r => parseRecommendation r revision_info

/-! ## firestore_updater.py (fixer-agent) and firestore_client.py
(supervisor-api): incident status writes

A Firestore incident document, restricted to the fields either client
reads or writes. Timestamps are epoch seconds as rationals; the action
result payload is kept opaque as a string. -/

/-- An incident document as stored in the `incidents` collection. -/
structure StoredIncident where
  id : String
  status : String
  detected_at : Option ℚ := none
  remediation_started_at : Option ℚ := none
  resolved_at : Option ℚ := none
  action_result : Option String := none
  error_message : Option String := none
  mttr_seconds : Option ℚ := none
  created_at : Option ℚ := none
  updated_at : Option ℚ := none
  ended_at : Option ℚ := none
  action_taken : Option String := none
  deriving DecidableEq, Repr

/-- `FirestoreUpdater.update_incident_status` (fixer-agent): given the
stored document for `incident_id` (`none` when absent), the requested
status and the optional action result / error message, returns the
document stored afterwards. `now` is the wall clock (`datetime.utcnow()`).
The write is applied unconditionally: no status transition is validated. -/
def updateIncidentStatus (stored : Option StoredIncident)
    (incident_id status : String) (action_result : Option String)
    (error_message : Option String) (now : ℚ) : StoredIncident :=
  match stored with
  | none =>
      -- "Create minimal incident record"
      { id := incident_id, status := status
        created_at := some now, updated_at := some now }
  | some doc =>
      let doc := { doc with status := status, updated_at := some now }
      if status = "remediating" then
        { doc with remediation_started_at := some now }
      else if status = "resolved" then
        let doc := { doc with resolved_at := some now }
        let doc := match action_result with
          | some r => { doc with action_result := some r }
          | none => doc
        match doc.detected_at with
        | some d => { doc with mttr_seconds := some (now - d) }
        | none => doc
      else if status = "failed" then
        let doc := { doc with resolved_at := some now }
        match error_message with
        | some e => { doc with error_message := some e }
        | none => doc
      else doc

/-- The update map passed to `FirestoreClient.update_incident`
(supervisor-api), restricted to the fields its callers supply. -/
structure IncidentUpdates where
  status : Option String := none
  ended_at : Option ℚ := none
  mttr_seconds : Option ℚ := none
  action_taken : Option String := none
  deriving DecidableEq, Repr

/-- `FirestoreClient.update_incident` (supervisor-api): a plain Firestore
document update — it merges the supplied fields into the stored document
with no validation of any kind; on a missing document the underlying
`update` raises, which the method re-raises. -/
def updateIncident (stored : Option StoredIncident) (u : IncidentUpdates) :
    Except String StoredIncident :=
  match stored with
  | none => .error "document not found"
  | some doc =>
      .ok { doc with
        status := u.status.getD doc.status
        ended_at := u.ended_at <|> doc.ended_at
        mttr_seconds := u.mttr_seconds <|> doc.mttr_seconds
        action_taken := u.action_taken <|> doc.action_taken }

/-- Modelled from the spec: the incident-state DAG of §3
(`DETECTED → ANALYZING → ACTION_PENDING → REMEDIATING → {RESOLVED, FAILED}`,
with `ANALYZING` optional), as the claim's notion of a valid transition.
No function in src/ implements this check; it exists here only as the
spec-side reference against which the stored behaviour is compared. -/
def specValidTransition (fromStatus toStatus : String) : Bool :=
  (fromStatus = "detected" && (toStatus = "analyzing" || toStatus = "action_pending")) ||
  (fromStatus = "analyzing" && toStatus = "action_pending") ||
  (fromStatus = "action_pending" && toStatus = "remediating") ||
  (fromStatus = "remediating" && (toStatus = "resolved" || toStatus = "failed"))

/-! ## cloud_run_manager.py (fixer-agent): platform executor -/

/-- The safety limits and dry-run switch read from the environment in
`CloudRunManager.__init__` (defaults as in the source). -/
structure ManagerConfig where
  min_instances_floor : ℤ := 0
  min_instances_ceiling : ℤ := 5
  max_instances_floor : ℤ := 10
  max_instances_ceiling : ℤ := 100
  dry_run : Bool := false
  deriving Repr

/-- `service.template.scaling` of the service object read from the control
plane. -/
structure ServiceScaling where
  min_instance_count : ℤ
  max_instance_count : ℤ
  deriving DecidableEq, Repr

/-- Result of `update_scaling`. The dry-run dictionary and the success
dictionary are distinguished; the operation id of the real path comes from
the external long-running operation and is elided. -/
inductive ScalingResult
  | dryRun (old_min old_max new_min new_max : ℤ)
  | applied (old_min old_max new_min new_max : ℤ)
  deriving DecidableEq, Repr

/-- The `new_min` recorded in either result dictionary. -/
def ScalingResult.new_min : ScalingResult → ℤ
  | .dryRun _ _ n _ => n
  | .applied _ _ n _ => n

/-- The `new_max` recorded in either result dictionary. -/
def ScalingResult.new_max : ScalingResult → ℤ
  | .dryRun _ _ _ n => n
  | .applied _ _ _ n => n

/-- The clamp applied to a supplied `min_instances`:
`max(floor, min(x, ceiling))`. -/
def clampMin (cfg : ManagerConfig) (x : ℤ) : ℤ :=
  max cfg.min_instances_floor (min x cfg.min_instances_ceiling)

/-- The clamp applied to a supplied `max_instances`. -/
def clampMax (cfg : ManagerConfig) (x : ℤ) : ℤ :=
  max cfg.max_instances_floor (min x cfg.max_instances_ceiling)

/-- `old_min` read from the service (`0` when it has no scaling block). -/
def oldMinOf (current : Option ServiceScaling) : ℤ :=
  match current with
  | some s => s.min_instance_count
  | none => 0

/-- `old_max` read from the service (`100` when it has no scaling block). -/
def oldMaxOf (current : Option ServiceScaling) : ℤ :=
  match current with
  | some s => s.max_instance_count
  | none => 100

/-- `effective_min`: the clamped supplied bound, else the current one. -/
def effectiveMin (cfg : ManagerConfig) (current : Option ServiceScaling)
    (min_instances : Option ℤ) : ℤ :=
  (min_instances.map (clampMin cfg)).getD (oldMinOf current)

/-- `effective_max`: the clamped supplied bound, else the current one. -/
def effectiveMax (cfg : ManagerConfig) (current : Option ServiceScaling)
    (max_instances : Option ℤ) : ℤ :=
  (max_instances.map (clampMax cfg)).getD (oldMaxOf current)

/-- The `ValueError` message raised when the clamped bounds cross. -/
def scalingBoundsErrorMsg (eMin eMax : ℤ) : String :=
  "min_instances (" ++ toString eMin ++ ") cannot be greater than max_instances (" ++
    toString eMax ++ ")"

/-- `CloudRunManager.update_scaling`. `service` is the control-plane read:
`none` when the service does not exist, otherwise its current scaling
block. The second component counts `update_service` control-plane writes
issued by the call. The control plane is modelled as applying exactly the
submitted fields (the read-modify-write under the
`template.scaling` field mask), which is what the re-read of the updated
service returns. -/
def update_scaling (cfg : ManagerConfig)
    (service : Option (Option ServiceScaling))
    (min_instances max_instances : Option ℤ) :
    Except String ScalingResult × ℕ :=
  match service with
  | none => (.error "Service not found", 0)
  | some current =>
      let old_min := oldMinOf current
      let old_max := oldMaxOf current
      let eMin := effectiveMin cfg current min_instances
      let eMax := effectiveMax cfg current max_instances
      if eMin > eMax then
        (.error (scalingBoundsErrorMsg eMin eMax), 0)
      else if cfg.dry_run then
        (.ok (.dryRun old_min old_max eMin eMax), 0)
      else
        -- submitted: each supplied (clamped) field overwrites, the other is
        -- preserved from the read object; the re-read returns the same
        (.ok (.applied old_min old_max eMin eMax), 1)

/-- Result of `rollback_traffic`; traffic splits are association lists
`revision ↦ percent`. -/
inductive RollbackResult
  | dryRun (target_revision : String) (old_traffic new_traffic : List (String × ℤ))
  | applied (target_revision : String) (old_traffic new_traffic : List (String × ℤ))
  deriving DecidableEq, Repr

/-- `CloudRunManager.rollback_traffic`. `service` is the control-plane
read: `none` when the service does not exist, otherwise its current
traffic split; `available_revisions` is the `list_revisions` response.
The second component counts `update_service` writes. -/
def rollback_traffic (cfg : ManagerConfig)
    (service : Option (List (String × ℤ))) (available_revisions : List String)
    (target_revision : String) (percentage : ℤ := 100) :
    Except String RollbackResult × ℕ :=
  match service with
  | none => (.error ("Service not found"), 0)
  | some old_traffic =>
      if target_revision ∉ available_revisions then
        (.error ("Target revision " ++ target_revision ++ " not found"), 0)
      else if cfg.dry_run then
        (.ok (.dryRun target_revision old_traffic [(target_revision, percentage)]), 0)
      else
        (.ok (.applied target_revision old_traffic [(target_revision, percentage)]), 1)

/-! ## Theorems -/

/-- Rounding to two decimals moves a rational by at most half a
hundredth. -/
theorem abs_round2_sub_le (x : ℚ) : |round2 x - x| ≤ 1 / 200 := by
  unfold round2
  have h : (round (x * 100) : ℚ) / 100 - x = ((round (x * 100) : ℚ) - x * 100) / 100 := by
    ring
  rw [h, abs_div]
  have h100 : |(100 : ℚ)| = 100 := by norm_num
  rw [h100, abs_sub_comm]
  have := abs_sub_round (x * 100)
  linarith

/-- C4: every metrics value built by `HealthScanner._get_metrics` from
telemetry results with `err ≤ req` (the 5xx series is a label-filtered
slice of the very counter that yields the total, so the backend cannot
report more 5xx requests than requests) keeps `error_count ≤
request_count`, and its `error_rate` is `100 * error_count /
request_count` rounded to two decimals, hence within `0.01` of the exact
ratio; with `request_count = 0` the rate is `0`. -/
theorem getMetrics_error_rate_invariant (req err : ℕ) (lat : ℚ) (h : err ≤ req) :
    (getMetrics req err lat).error_count ≤ (getMetrics req err lat).request_count ∧
    (0 < (getMetrics req err lat).request_count →
      |(getMetrics req err lat).error_rate -
        100 * ((getMetrics req err lat).error_count : ℚ) /
          ((getMetrics req err lat).request_count : ℚ)| < 1 / 100) ∧
    ((getMetrics req err lat).request_count = 0 →
      (getMetrics req err lat).error_rate = 0) := by
  refine ⟨h, ?_, ?_⟩
  · intro hpos
    have hreq : 0 < req := hpos
    have hrate : (getMetrics req err lat).error_rate = round2 ((err : ℚ) / (req : ℚ) * 100) := by
      simp [getMetrics, hreq]
    have hcount : ((getMetrics req err lat).error_count : ℚ) = (err : ℚ) := rfl
    have hreqc : ((getMetrics req err lat).request_count : ℚ) = (req : ℚ) := rfl
    rw [hrate, hcount, hreqc]
    have hxy : (100 : ℚ) * (err : ℚ) / (req : ℚ) = (err : ℚ) / (req : ℚ) * 100 := by
      ring
    rw [hxy]
    calc |round2 ((err : ℚ) / (req : ℚ) * 100) - (err : ℚ) / (req : ℚ) * 100|
        ≤ 1 / 200 := abs_round2_sub_le _
      _ < 1 / 100 := by norm_num
  · intro hz
    have hreq : req = 0 := hz
    subst hreq
    simp [getMetrics, round2]

/-- C4 witness: telemetry `req = 500`, `err = 2`, `p95 = 120`. -/
theorem getMetrics_error_rate_invariant_w :
    2 ≤ 500 ∧
    ((getMetrics 500 2 120).error_count ≤ (getMetrics 500 2 120).request_count ∧
      (0 < (getMetrics 500 2 120).request_count →
        |(getMetrics 500 2 120).error_rate -
          100 * ((getMetrics 500 2 120).error_count : ℚ) /
            ((getMetrics 500 2 120).request_count : ℚ)| < 1 / 100) ∧
      ((getMetrics 500 2 120).request_count = 0 →
        (getMetrics 500 2 120).error_rate = 0)) :=
  ⟨by decide, getMetrics_error_rate_invariant 500 2 120 (by decide)⟩

/-- C5: with fewer than `min_request_count` requests, `_assess_health`
returns `HEALTHY`, no anomaly and no summary, whatever the error rate and
latency are. -/
theorem assessHealth_insufficient_data_healthy (cfg : ScannerConfig)
    (m : HealthMetrics) (h : m.request_count < cfg.min_request_count) :
    assessHealth cfg m = (.healthy, false, none) := by
  simp [assessHealth, h]

/-- C5 witness: 10 requests at a 50% error rate and 1200 ms p95 against
the default thresholds. -/
theorem assessHealth_insufficient_data_healthy_w :
    (10 : ℕ) < ScannerConfig.min_request_count {} ∧
    assessHealth {} ⟨50, some 1200, 10, 5, 5⟩ = (.healthy, false, none) :=
  ⟨by decide, assessHealth_insufficient_data_healthy {} ⟨50, some 1200, 10, 5, 5⟩ (by decide)⟩

/-- C10: when `latency_p95` is `None` or `0` (both falsy in the source's
check), `_assess_health` can collect at most the error-rate violation, so
the status is never `UNHEALTHY`: it is `HEALTHY` or `DEGRADED`. -/
theorem assessHealth_without_latency_never_unhealthy (cfg : ScannerConfig)
    (m : HealthMetrics) (h : m.latency_p95 = none ∨ m.latency_p95 = some 0) :
    (assessHealth cfg m).1 ≠ .unhealthy ∧
    ((assessHealth cfg m).1 = .healthy ∨ (assessHealth cfg m).1 = .degraded) := by
  have hlat : latencyViolation cfg m = false := by
    rcases h with h | h <;> simp [latencyViolation, h]
  have hsuff : (assessHealth cfg m).1 ≠ .unhealthy ∧
      ((assessHealth cfg m).1 = .healthy ∨ (assessHealth cfg m).1 = .degraded) := by
    unfold assessHealth
    by_cases hmin : m.request_count < cfg.min_request_count
    · simp [hmin]
    · cases herr : errorRateViolation cfg m <;>
        simp [hmin, collectAnomalies, herr, hlat]
  exact hsuff

/-- C10 witness: 1000 requests, 15% error rate, no latency signal. -/
theorem assessHealth_without_latency_never_unhealthy_w :
    (⟨15, none, 1000, 850, 150⟩ : HealthMetrics).latency_p95 = none ∧
    ((assessHealth {} ⟨15, none, 1000, 850, 150⟩).1 ≠ .unhealthy ∧
      ((assessHealth {} ⟨15, none, 1000, 850, 150⟩).1 = .healthy ∨
        (assessHealth {} ⟨15, none, 1000, 850, 150⟩).1 = .degraded)) :=
  ⟨rfl, assessHealth_without_latency_never_unhealthy {} ⟨15, none, 1000, 850, 150⟩ (Or.inl rfl)⟩

/-- C2 counterexample: in `scan_service_health` (supervisor-api/main.py) a
lone error-rate violation — 500 requests, 50 errors (10% > 5%), p95 120 ms
under the 600 ms threshold, so exactly one violation is collected (the
summary is a single message, not a join) — already yields the status
`"unhealthy"`, where the claim demands `DEGRADED` for one violation. -/
theorem scan_service_health_single_violation_unhealthy_cx :
    scanServiceHealthAssess 5 600 100 500 50 120 =
      ("unhealthy", true, some "High error rate: 10.00% (threshold: 5.00%)") := by
  have hrate : (if (500 : ℕ) > 0 then ((50 : ℕ) : ℚ) / ((500 : ℕ) : ℚ) * 100 else 0) = 10 := by
    norm_num
  have hf10 : fmt2 10 = "10.00" := by
    unfold fmt2
    norm_num [round_eq]
    decide
  have hf5 : fmt2 5 = "5.00" := by
    unfold fmt2
    norm_num [round_eq]
    decide
  simp only [scanServiceHealthAssess, hrate, hf10, hf5]
  norm_num
  decide

/-- C2 amended: for `HealthScanner._assess_health` (the scanner component,
health_scanner.py) with at least `min_request_count` requests the claimed
law holds: `HEALTHY` iff zero violations are collected, `DEGRADED` iff
exactly one, `UNHEALTHY` iff two or more; `has_anomaly` iff the count is
nonzero; the summary is the violations joined by `"; "` when any exist and
absent otherwise. (The near-duplicate classification in
supervisor-api/main.py's `scan_service_health` does not satisfy this — see
the counterexample.) -/
theorem assessHealth_violation_count_classification (cfg : ScannerConfig)
    (m : HealthMetrics) (h : cfg.min_request_count ≤ m.request_count) :
    ((assessHealth cfg m).1 = .healthy ↔ (collectAnomalies cfg m).length = 0) ∧
    ((assessHealth cfg m).1 = .degraded ↔ (collectAnomalies cfg m).length = 1) ∧
    ((assessHealth cfg m).1 = .unhealthy ↔ 2 ≤ (collectAnomalies cfg m).length) ∧
    ((assessHealth cfg m).2.1 = true ↔ (collectAnomalies cfg m).length ≠ 0) ∧
    ((collectAnomalies cfg m).length ≠ 0 →
      (assessHealth cfg m).2.2 = some (String.intercalate "; " (collectAnomalies cfg m))) ∧
    ((collectAnomalies cfg m).length = 0 → (assessHealth cfg m).2.2 = none) := by
  have hmin : ¬ m.request_count < cfg.min_request_count := not_lt.mpr h
  cases herr : errorRateViolation cfg m <;> cases hlat : latencyViolation cfg m <;>
    simp [assessHealth, collectAnomalies, herr, hlat, hmin]

/-- C2 amended witness: 500 requests, 10% error rate, p95 900 ms against
the default thresholds — both violations collected, `UNHEALTHY`. -/
theorem assessHealth_violation_count_classification_w :
    ScannerConfig.min_request_count {} ≤
      (⟨10, some 900, 500, 450, 50⟩ : HealthMetrics).request_count ∧
    (((assessHealth {} ⟨10, some 900, 500, 450, 50⟩).1 = .healthy ↔
        (collectAnomalies {} ⟨10, some 900, 500, 450, 50⟩).length = 0) ∧
      ((assessHealth {} ⟨10, some 900, 500, 450, 50⟩).1 = .degraded ↔
        (collectAnomalies {} ⟨10, some 900, 500, 450, 50⟩).length = 1) ∧
      ((assessHealth {} ⟨10, some 900, 500, 450, 50⟩).1 = .unhealthy ↔
        2 ≤ (collectAnomalies {} ⟨10, some 900, 500, 450, 50⟩).length) ∧
      ((assessHealth {} ⟨10, some 900, 500, 450, 50⟩).2.1 = true ↔
        (collectAnomalies {} ⟨10, some 900, 500, 450, 50⟩).length ≠ 0) ∧
      ((collectAnomalies {} ⟨10, some 900, 500, 450, 50⟩).length ≠ 0 →
        (assessHealth {} ⟨10, some 900, 500, 450, 50⟩).2.2 =
          some (String.intercalate "; " (collectAnomalies {} ⟨10, some 900, 500, 450, 50⟩))) ∧
      ((collectAnomalies {} ⟨10, some 900, 500, 450, 50⟩).length = 0 →
        (assessHealth {} ⟨10, some 900, 500, 450, 50⟩).2.2 = none)) :=
  ⟨by decide,
    assessHealth_violation_count_classification {} ⟨10, some 900, 500, 450, 50⟩ (by decide)⟩

/-- C7: `analyze_and_recommend` is total toward its caller — every
environment outcome yields an `AIRecommendation` value — and on any
failure (model call error/timeout or an unparseable reply) the result is
the safe default: action `NONE` with confidence `0`, the reasoning
carrying the error. -/
theorem analyzeAndRecommend_failure_safe_default (info : RevisionInfo)
    (o : ModelOutcome) (h : o.failed = true) :
    (analyzeAndRecommend info o).action = .NONE ∧
    (analyzeAndRecommend info o).confidence = 0 := by
  cases o with
  | callError e => simp [analyzeAndRecommend, analysisFallback]
  | reply r =>
      cases r with
      | error e => simp [analyzeAndRecommend, parseRecommendation, parseFallback]
      | ok d => simp [ModelOutcome.failed] at h

/-- C7 witness: a reply of plain prose, whose JSON parse failed. -/
theorem analyzeAndRecommend_failure_safe_default_w :
    (ModelOutcome.reply (.error "Expecting value: line 1 column 1 (char 0)")).failed = true ∧
    ((analyzeAndRecommend ⟨none, none, [], []⟩
        (.reply (.error "Expecting value: line 1 column 1 (char 0)"))).action = .NONE ∧
      (analyzeAndRecommend ⟨none, none, [], []⟩
        (.reply (.error "Expecting value: line 1 column 1 (char 0)"))).confidence = 0) :=
  ⟨rfl, analyzeAndRecommend_failure_safe_default ⟨none, none, [], []⟩
    (.reply (.error "Expecting value: line 1 column 1 (char 0)")) rfl⟩

/-- C3 counterexample: with platform facts holding a single revision that
takes all traffic as "latest" — so no previous stable revision is derived —
a parsed `ROLLBACK` reply is returned as action `ROLLBACK` with
`target_revision = none`; it is not downgraded to `NONE`, and the returned
`ROLLBACK` carries no target revision. -/
theorem parse_rollback_without_previous_revision_cx :
    (getRevisionInfo (some [("rev-1", 100, true)]) ["rev-1"]).previous_revision = none ∧
    (parseRecommendation (.ok ⟨"ROLLBACK", 1, "r", "ra", "ei"⟩)
      (getRevisionInfo (some [("rev-1", 100, true)]) ["rev-1"])).action = .ROLLBACK ∧
    (parseRecommendation (.ok ⟨"ROLLBACK", 1, "r", "ra", "ei"⟩)
      (getRevisionInfo (some [("rev-1", 100, true)]) ["rev-1"])).target_revision = none := by
  decide

/-- C3 amended: for every parsed reply whose action coerces to `ROLLBACK`
(and whose confidence passes record validation), the derived
previous-stable revision — whatever it is, including `none` — is injected
as `target_revision`, and the action stays `ROLLBACK`. No downgrade to
`NONE` happens when the previous revision is absent: in that case the
returned `ROLLBACK` simply carries no target revision. -/
theorem parse_rollback_injects_previous_revision (d : ParsedReply)
    (info : RevisionInfo)
    (ha : actionTypeOfString (pyUpper d.action) = some .ROLLBACK)
    (h0 : 0 ≤ d.confidence) (h1 : d.confidence ≤ 1) :
    (parseRecommendation (.ok d) info).action = .ROLLBACK ∧
    (parseRecommendation (.ok d) info).target_revision = info.previous_revision := by
  have hn : ¬ (d.confidence < 0 ∨ 1 < d.confidence) := by
    push_neg
    exact ⟨h0, h1⟩
  simp [parseRecommendation, ha, hn]

/-- C3 amended witness: a lowercase `"rollback"` reply against facts that
derived `"rev-0"` as the previous stable revision. -/
theorem parse_rollback_injects_previous_revision_w :
    actionTypeOfString (pyUpper "rollback") = some .ROLLBACK ∧
    ((parseRecommendation (.ok ⟨"rollback", 1, "r", "ra", "ei"⟩)
        ⟨some "rev-1", some "rev-0", [("rev-1", 100)], ["rev-1", "rev-0"]⟩).action = .ROLLBACK ∧
      (parseRecommendation (.ok ⟨"rollback", 1, "r", "ra", "ei"⟩)
        ⟨some "rev-1", some "rev-0", [("rev-1", 100)], ["rev-1", "rev-0"]⟩).target_revision =
        (⟨some "rev-1", some "rev-0", [("rev-1", 100)], ["rev-1", "rev-0"]⟩ :
          RevisionInfo).previous_revision) :=
  ⟨by decide,
    parse_rollback_injects_previous_revision ⟨"rollback", 1, "r", "ra", "ei"⟩
      ⟨some "rev-1", some "rev-0", [("rev-1", 100)], ["rev-1", "rev-0"]⟩
      (by decide) (by decide) (by decide)⟩

/-- C8 counterexample: a parsed reply with action `SCALE_UP` and
confidence `2` (above 1). The claim predicts clamping — confidence `1`
with the action preserved — but the pydantic range check on the
`AIRecommendation` constructor raises, so the `except` branch returns the
fallback: action `NONE`, confidence `0`. -/
theorem parse_confidence_above_one_not_clamped_cx :
    (parseRecommendation (.ok ⟨"SCALE_UP", 2, "r", "ra", "ei"⟩)
      ⟨none, none, [], []⟩).action = .NONE ∧
    (parseRecommendation (.ok ⟨"SCALE_UP", 2, "r", "ra", "ei"⟩)
      ⟨none, none, [], []⟩).confidence = 0 := by
  decide

/-- C8 amended: for a successfully parsed reply, a confidence already in
`[0, 1]` is preserved exactly (no clamping is ever applied) and the
coerced action is kept; a confidence outside `[0, 1]` fails the record's
range validation and the whole recommendation collapses to the `NONE`
fallback with confidence `0`. -/
theorem parse_confidence_in_range_kept_else_fallback (d : ParsedReply)
    (info : RevisionInfo) :
    (0 ≤ d.confidence → d.confidence ≤ 1 →
      (parseRecommendation (.ok d) info).confidence = d.confidence ∧
      (parseRecommendation (.ok d) info).action =
        (actionTypeOfString (pyUpper d.action)).getD .NONE) ∧
    ((d.confidence < 0 ∨ 1 < d.confidence) →
      parseRecommendation (.ok d) info = parseFallback "validation error") := by
  constructor
  · intro h0 h1
    have hn : ¬ (d.confidence < 0 ∨ 1 < d.confidence) := by
      push_neg
      exact ⟨h0, h1⟩
    simp [parseRecommendation, hn]
  · intro h
    simp [parseRecommendation, h]

/-- C8 amended witness: a `SCALE_DOWN` reply with confidence `1`. -/
theorem parse_confidence_in_range_kept_else_fallback_w :
    (0 : ℚ) ≤ 1 ∧ (1 : ℚ) ≤ 1 ∧
    ((parseRecommendation (.ok ⟨"SCALE_DOWN", 1, "r", "ra", "ei"⟩)
        ⟨none, none, [], []⟩).confidence = 1 ∧
      (parseRecommendation (.ok ⟨"SCALE_DOWN", 1, "r", "ra", "ei"⟩)
        ⟨none, none, [], []⟩).action =
        (actionTypeOfString (pyUpper "SCALE_DOWN")).getD .NONE) :=
  ⟨by decide, by decide,
    (parse_confidence_in_range_kept_else_fallback ⟨"SCALE_DOWN", 1, "r", "ra", "ei"⟩
      ⟨none, none, [], []⟩).1 (by decide) (by decide)⟩

/-- C1 counterexample: `("resolved", "remediating")` is not an edge of the
spec's DAG, yet a status update requesting `"remediating"` on a stored
incident already in the terminal status `"resolved"` is applied: the
stored record's status becomes `"remediating"` and the record changes.
Nothing is rejected — neither client validates transitions. -/
theorem incident_terminal_status_overwritten_cx :
    specValidTransition "resolved" "remediating" = false ∧
    (updateIncidentStatus
      (some { id := "inc_demo-app-a_1000", status := "resolved",
              detected_at := some 1000, resolved_at := some 1100 })
      "inc_demo-app-a_1000" "remediating" none none 1200).status = "remediating" ∧
    updateIncidentStatus
      (some { id := "inc_demo-app-a_1000", status := "resolved",
              detected_at := some 1000, resolved_at := some 1100 })
      "inc_demo-app-a_1000" "remediating" none none 1200 ≠
      { id := "inc_demo-app-a_1000", status := "resolved",
        detected_at := some 1000, resolved_at := some 1100 } := by
  decide

/-- C1 amended: both status-write paths are unconditional. The fixer's
`update_incident_status` stores exactly the requested status on every
call, whatever the current (possibly terminal) status is — no
(current, requested) pair is ever rejected and the record is always
modified accordingly; likewise the supervisor's `update_incident` merges
any requested status into an existing record without validation. -/
theorem incident_status_writes_unconditional :
    (∀ (doc : StoredIncident) (iid st : String) (ar em : Option String) (now : ℚ),
      (updateIncidentStatus (some doc) iid st ar em now).status = st) ∧
    (∀ (doc : StoredIncident) (u : IncidentUpdates) (st : String),
      u.status = some st →
        ∃ d, updateIncident (some doc) u = .ok d ∧ d.status = st) := by
  constructor
  · intro doc iid st ar em now
    unfold updateIncidentStatus
    by_cases h1 : st = "remediating" <;> by_cases h2 : st = "resolved" <;>
      by_cases h3 : st = "failed" <;>
      cases ar <;> cases em <;> cases hd : doc.detected_at <;>
      simp [h1, h2, h3, hd]
  · intro doc u st h
    exact ⟨_, rfl, by simp [updateIncident, h]⟩

/-- C1 amended witness: a `"remediating"` write onto a resolved incident,
and a supervisor-side `"failed"` status merge. -/
theorem incident_status_writes_unconditional_w :
    (updateIncidentStatus (some { id := "inc_a_1", status := "resolved" })
      "inc_a_1" "remediating" none none 1200).status = "remediating" ∧
    (some "failed" = some "failed" ∧
      ∃ d, updateIncident (some { id := "inc_a_1", status := "resolved" })
        { status := some "failed" } = .ok d ∧ d.status = "failed") :=
  ⟨incident_status_writes_unconditional.1 { id := "inc_a_1", status := "resolved" }
      "inc_a_1" "remediating" none none 1200,
    rfl,
    incident_status_writes_unconditional.2 { id := "inc_a_1", status := "resolved" }
      { status := some "failed" } "failed" rfl⟩

/-- C6: under a sane configuration (each floor at most its ceiling) every
supplied scaling bound is clamped into its configured range; when the
clamped effective bounds cross, `update_scaling` raises the
invalid-argument `ValueError` before issuing any control-plane write; and
any returned result records exactly the effective (clamped) bounds as the
applied values. -/
theorem update_scaling_clamps_and_validates (cfg : ManagerConfig)
    (hmin : cfg.min_instances_floor ≤ cfg.min_instances_ceiling)
    (hmax : cfg.max_instances_floor ≤ cfg.max_instances_ceiling) :
    (∀ x : ℤ, cfg.min_instances_floor ≤ clampMin cfg x ∧
      clampMin cfg x ≤ cfg.min_instances_ceiling) ∧
    (∀ x : ℤ, cfg.max_instances_floor ≤ clampMax cfg x ∧
      clampMax cfg x ≤ cfg.max_instances_ceiling) ∧
    (∀ (current : Option ServiceScaling) (minI maxI : Option ℤ),
      effectiveMin cfg current minI > effectiveMax cfg current maxI →
        update_scaling cfg (some current) minI maxI =
          (.error (scalingBoundsErrorMsg (effectiveMin cfg current minI)
            (effectiveMax cfg current maxI)), 0)) ∧
    (∀ (current : Option ServiceScaling) (minI maxI : Option ℤ)
      (r : ScalingResult) (n : ℕ),
      update_scaling cfg (some current) minI maxI = (.ok r, n) →
        r.new_min = effectiveMin cfg current minI ∧
        r.new_max = effectiveMax cfg current maxI) := by
  refine ⟨?_, ?_, ?_, ?_⟩
  · intro x
    exact ⟨le_max_left _ _, max_le hmin (min_le_right _ _)⟩
  · intro x
    exact ⟨le_max_left _ _, max_le hmax (min_le_right _ _)⟩
  · intro current minI maxI h
    simp [update_scaling, h]
  · intro current minI maxI r n h
    simp only [update_scaling] at h
    split_ifs at h <;>
      simp_all [ScalingResult.new_min, ScalingResult.new_max] <;>
      simp [← h.1, ScalingResult.new_min, ScalingResult.new_max]

/-- C6 witness (seed scenario 6): requested `min = 20`, `max = 500`
against the default limits; the clamps land on `5` and `100`. -/
theorem update_scaling_clamps_and_validates_w :
    ManagerConfig.min_instances_floor {} ≤ ManagerConfig.min_instances_ceiling {} ∧
    (ManagerConfig.min_instances_floor {} ≤ clampMin {} 20 ∧
      clampMin {} 20 ≤ ManagerConfig.min_instances_ceiling {}) ∧
    (ManagerConfig.max_instances_floor {} ≤ clampMax {} 500 ∧
      clampMax {} 500 ≤ ManagerConfig.max_instances_ceiling {}) :=
  ⟨by decide,
    (update_scaling_clamps_and_validates {} (by decide) (by decide)).1 20,
    (update_scaling_clamps_and_validates {} (by decide) (by decide)).2.1 500⟩

/-- C9: with the dry-run switch on, neither `rollback_traffic` nor
`update_scaling` ever issues a control-plane write (the `update_service`
call count is `0` on every path), and when the preconditions pass each
returns the synthesized result tagged `dry_run` recording the traffic or
scaling values that would have been applied. -/
theorem dry_run_issues_no_control_plane_writes (cfg : ManagerConfig)
    (hdry : cfg.dry_run = true) :
    (∀ (svc : Option (List (String × ℤ))) (revs : List String)
      (target : String) (pct : ℤ),
      (rollback_traffic cfg svc revs target pct).2 = 0) ∧
    (∀ (old : List (String × ℤ)) (revs : List String) (target : String) (pct : ℤ),
      target ∈ revs →
        rollback_traffic cfg (some old) revs target pct =
          (.ok (.dryRun target old [(target, pct)]), 0)) ∧
    (∀ (svc : Option (Option ServiceScaling)) (minI maxI : Option ℤ),
      (update_scaling cfg svc minI maxI).2 = 0) ∧
    (∀ (current : Option ServiceScaling) (minI maxI : Option ℤ),
      effectiveMin cfg current minI ≤ effectiveMax cfg current maxI →
        update_scaling cfg (some current) minI maxI =
          (.ok (.dryRun (oldMinOf current) (oldMaxOf current)
            (effectiveMin cfg current minI) (effectiveMax cfg current maxI)), 0)) := by
  refine ⟨?_, ?_, ?_, ?_⟩
  · intro svc revs target pct
    cases svc with
    | none => rfl
    | some old =>
        by_cases hmem : target ∈ revs <;> simp [rollback_traffic, hmem, hdry]
  · intro old revs target pct hmem
    simp [rollback_traffic, hmem, hdry]
  · intro svc minI maxI
    cases svc with
    | none => rfl
    | some current =>
        by_cases hv : effectiveMin cfg current minI > effectiveMax cfg current maxI <;>
          simp [update_scaling, hv, hdry]
  · intro current minI maxI h
    simp [update_scaling, not_lt.mpr h, hdry]

/-- C9 witness: dry-run configuration, a rollback of all traffic to
`"rev-0"` and a scaling update to `min = 2`, `max = 50`. -/
theorem dry_run_issues_no_control_plane_writes_w :
    ManagerConfig.dry_run { dry_run := true } = true ∧
    "rev-0" ∈ ["rev-1", "rev-0"] ∧
    rollback_traffic { dry_run := true } (some [("rev-1", 100)])
      ["rev-1", "rev-0"] "rev-0" 100 =
      (.ok (.dryRun "rev-0" [("rev-1", 100)] [("rev-0", 100)]), 0) ∧
    effectiveMin { dry_run := true } (some ⟨1, 80⟩) (some 2) ≤
      effectiveMax { dry_run := true } (some ⟨1, 80⟩) (some 50) ∧
    update_scaling { dry_run := true } (some (some ⟨1, 80⟩)) (some 2) (some 50) =
      (.ok (.dryRun 1 80
        (effectiveMin { dry_run := true } (some ⟨1, 80⟩) (some 2))
        (effectiveMax { dry_run := true } (some ⟨1, 80⟩) (some 50))), 0) :=
  ⟨rfl, by decide,
    (dry_run_issues_no_control_plane_writes { dry_run := true } rfl).2.1
      [("rev-1", 100)] ["rev-1", "rev-0"] "rev-0" 100 (by decide),
    by decide,
    (dry_run_issues_no_control_plane_writes { dry_run := true } rfl).2.2.2
      (some ⟨1, 80⟩) (some 2) (some 50) (by decide)⟩

end AgentOps
